import Mathlib

/-!
Verification of `analyse_dechargement.py` (ship-unloading analysis pipeline).

Shallow embedding choices:
* Numeric cell values are rationals (`ℚ`); Python `round(x, 2)` (NumPy
  round-half-to-even, as used by `pandas.Series.__round__`) is modelled by
  `round2`.
* A cell is `Option CellVal`: `none` models a missing value (pandas `NaN`/`NaT`),
  which propagates through arithmetic; a `CellVal` is a number, a timestamp,
  a timedelta, or text.
* A dataframe is an ordered list of named columns.  `getCol` mirrors pandas
  `df[name]` (raising `KeyError` when the column is absent, modelled with
  `Except`); `setCol` mirrors `df[name] = col` (overwrite in place if the
  name exists, else append at the end).
* The filesystem is a map from paths (lists of components) to sheet files,
  plus the set of existing directories.  An Excel file is modelled as its
  header row, its data rows, its per-cell number formats and its per-column
  widths, which is exactly the state the two openpyxl passes touch.
-/

/-- Python `round` ties-to-even on the result of `x * 100`, i.e. NumPy's
round-half-to-even, which `pandas.Series.round` uses. -/
def roundHalfEven (x : ℚ) : ℤ :=
  let f : ℤ := ⌊x⌋
  if x - f < 1/2 then f
  else if x - f > 1/2 then f + 1
  else if f % 2 = 0 then f else f + 1

/-- `round(x, 2)` from the Python source, on rationals. -/
def round2 (x : ℚ) : ℚ := (roundHalfEven (x * 100) : ℚ) / 100

/-- A non-missing cell value: number, parsed timestamp, timedelta or text. -/
inductive CellVal where
  | num (q : ℚ)
  | time (t : ℤ)
  | dur (d : ℤ)
  | text (s : String)
deriving DecidableEq, Repr

/-- A cell: `none` is pandas `NaN`/`NaT` (missing value). -/
abbrev Cell := Option CellVal

/-- Element-wise subtraction as pandas performs it on the columns this script
subtracts: number minus number, timestamp minus timestamp (giving a
timedelta); a missing operand yields a missing result. -/
def cellSub : Cell → Cell → Cell
  | some (.num a), some (.num b) => some (.num (a - b))
  | some (.time a), some (.time b) => some (.dur (a - b))
  | _, _ => none

/-- Element-wise multiplication by a scalar (`series * k`). -/
def cellScale (k : ℚ) : Cell → Cell
  | some (.num a) => some (.num (a * k))
  | _ => none

/-- Element-wise `round(·, 2)`. -/
def cellRound2 : Cell → Cell
  | some (.num a) => some (.num (round2 a))
  | _ => none

/-- A dataframe: ordered named columns. -/
abbrev Df := List (String × List Cell)

def colSub (a b : List Cell) : List Cell := List.zipWith cellSub a b

def colScale (k : ℚ) (a : List Cell) : List Cell := a.map (cellScale k)

def colRound2 (a : List Cell) : List Cell := a.map cellRound2

/-- `df[name]`: pandas raises `KeyError` when the column is missing. -/
def getCol (df : Df) (name : String) : Except String (List Cell) :=
  match df.find? (fun p => p.1 == name) with
  | some p => .ok p.2
  | none => .error ("KeyError: " ++ name)

/-- `df[name] = col`: overwrite the column in place if present, else append. -/
def setCol (df : Df) (name : String) (col : List Cell) : Df :=
  if df.any (fun p => p.1 == name) then
    df.map (fun p => if p.1 == name then (name, col) else p)
  else
    df ++ [(name, col)]

/-- Python `str.strip()`: drop whitespace from both ends. -/
def pyStrip (s : String) : String :=
  String.mk (((s.toList.dropWhile Char.isWhitespace).reverse.dropWhile
    Char.isWhitespace).reverse)

/-- `df.columns = df.columns.str.strip()` (line 165 of the source). -/
def stripHeaders (df : Df) : Df := df.map (fun p => (pyStrip p.1, p.2))

-- Column names of the source file (lines 41-54).
def COL_DEBUT_PESEE : String := "Date heure 1ère pesée"
def COL_FIN_PESEE : String := "Date heure 2ème pesée"
def COL_DEBUT_DECH : String := "Date début déchargement"
def COL_FIN_DECH : String := "Date fin déchargement"
def COL_DUREE_OPERATION : String := "Durée opération"
def COL_TEMPS_TR : String := "Temps traitement"
def COL_VOL_INIT : String := "Volume initial"
def COL_VOL_FINAL : String := "Volume final"
def COL_POIDS_ENTREE : String := "Poids entrée (kg)"
def COL_POIDS_SORTIE : String := "Poids sortie (kg)"
def COL_POIDS_EAU : String := "Poids eau (kg)"

-- Names of the generated columns (lines 59-62).
def COL_VOL_CHARGE_CALCULE : String := "Volume chargé (m³)"
def COL_POIDS_EAU_CALCULE : String := "Poids eau Calculé (kg)"
def COL_POIDS_NET_CALCULE : String := "Poids net Calculé (kg)"
def COL_POIDS_NET_RECALCULE : String := "Poids net Recalculé (kg)"

def NUMERIC_COLUMNS_TO_FORMAT : List String :=
  [COL_POIDS_EAU_CALCULE, COL_POIDS_NET_CALCULE, COL_POIDS_NET_RECALCULE]

/-- The computation block of `analyser_dechargement`, lines 173-188: the six
derived-column assignments, with column lookups in Python evaluation order; a
`KeyError` raised by any lookup propagates out. -/
def calculer (df : Df) : Except String Df :=
  -- line 173: df[VOL_CHARGE] = round(df[VOL_FINAL] - df[VOL_INIT], 2)
  match getCol df COL_VOL_FINAL with
  | .error e => .error e
  | .ok volFinal =>
  match getCol df COL_VOL_INIT with
  | .error e => .error e
  | .ok volInit =>
  let df1 := setCol df COL_VOL_CHARGE_CALCULE (colRound2 (colSub volFinal volInit))
  -- line 174: df[EAU_CALC] = round(df[VOL_CHARGE] * (1 + 6.6 / 100), 2)
  match getCol df1 COL_VOL_CHARGE_CALCULE with
  | .error e => .error e
  | .ok volCharge =>
  let df2 := setCol df1 COL_POIDS_EAU_CALCULE (colRound2 (colScale (1 + 6.6 / 100) volCharge))
  -- line 176: df[DUREE_OPERATION] = df[FIN_DECH] - df[DEBUT_DECH]
  match getCol df2 COL_FIN_DECH with
  | .error e => .error e
  | .ok finDech =>
  match getCol df2 COL_DEBUT_DECH with
  | .error e => .error e
  | .ok debutDech =>
  let df3 := setCol df2 COL_DUREE_OPERATION (colSub finDech debutDech)
  -- line 177: df[TEMPS_TR] = df[FIN_PESEE] - df[DEBUT_PESEE]
  match getCol df3 COL_FIN_PESEE with
  | .error e => .error e
  | .ok finPesee =>
  match getCol df3 COL_DEBUT_PESEE with
  | .error e => .error e
  | .ok debutPesee =>
  let df4 := setCol df3 COL_TEMPS_TR (colSub finPesee debutPesee)
  -- lines 180-182: df[NET_CALC] = round((df[SORTIE] - df[ENTREE] - df[EAU]) * (1 - 7/100), 2)
  match getCol df4 COL_POIDS_SORTIE with
  | .error e => .error e
  | .ok sortie =>
  match getCol df4 COL_POIDS_ENTREE with
  | .error e => .error e
  | .ok entree =>
  match getCol df4 COL_POIDS_EAU with
  | .error e => .error e
  | .ok eau =>
  let df5 := setCol df4 COL_POIDS_NET_CALCULE
    (colRound2 (colScale (1 - 7 / 100) (colSub (colSub sortie entree) eau)))
  -- lines 186-188: df[NET_RECALC] = round((df[SORTIE] - df[ENTREE] - df[EAU_CALC]) * (1 - 7/100), 2)
  match getCol df5 COL_POIDS_SORTIE with
  | .error e => .error e
  | .ok sortie2 =>
  match getCol df5 COL_POIDS_ENTREE with
  | .error e => .error e
  | .ok entree2 =>
  match getCol df5 COL_POIDS_EAU_CALCULE with
  | .error e => .error e
  | .ok eauCalc =>
  .ok (setCol df5 COL_POIDS_NET_RECALCULE
    (colRound2 (colScale (1 - 7 / 100) (colSub (colSub sortie2 entree2) eauCalc))))

/-- Model of Python `str(cell.value)` as used by the column-width pass
(line 114 of the source); `None` renders as the empty string. -/
def pyStr : Cell → String
  | none => ""
  | some (.num q) => toString q
  | some (.time t) => toString t
  | some (.dur d) => toString d
  | some (.text s) => s

/-- A written workbook sheet: header row (row 1), data rows (rows 2..),
per-cell number formats and per-column display widths.  Cell coordinates are
1-based as in openpyxl; format and width entries are kept newest-first. -/
structure Sheet where
  headers : List String
  rows : List (List Cell)
  fmts : List ((Nat × Nat) × String)
  widths : List (Nat × Nat)
deriving DecidableEq, Repr

/-- The number format of cell (column `c`, row `r`); openpyxl's default is
`"General"`. -/
def fmtAt (s : Sheet) (c r : Nat) : String :=
  ((s.fmts.find? (fun e => e.1 == (c, r))).map (fun e => e.2)).getD "General"

/-- The display width recorded for column `c`, if any was set. -/
def widthAt (s : Sheet) (c : Nat) : Option Nat :=
  (s.widths.find? (fun e => e.1 == c)).map (fun e => e.2)

/-- `ws[f"{letter}{row}"].number_format = fmt` (line 102 of the source). -/
def setFmt (s : Sheet) (c r : Nat) (f : String) : Sheet :=
  { s with fmts := ((c, r), f) :: s.fmts }

/-- `ws.column_dimensions[col_letter].width = w` (line 118 of the source). -/
def setWidth (s : Sheet) (c w : Nat) : Sheet :=
  { s with widths := (c, w) :: s.widths }

/-- Index of the last occurrence of `x` in `l`: the dict comprehension
`{cell.value: idx + 1 for idx, cell in enumerate(ws[header_row])}` (line 93)
lets a later duplicate header overwrite an earlier one. -/
def lastIdx (l : List String) (x : String) : Option Nat :=
  match l.reverse.findIdx? (fun y => y == x) with
  | none => none
  | some i => some (l.length - 1 - i)

/-- `col_index.get(col_name)` as a 1-based Excel column index (lines 93-97). -/
def colIndexExcel (headers : List String) (name : String) : Option Nat :=
  (lastIdx headers name).map (fun i => i + 1)

/-- `appliquer_format_numerique` (lines 87-103): for each of the three listed
columns, look its header up in row 1 (absent → skip), then set the
`"#,##0.00"` number format on every data row.  `range(header_row + 1,
ws.max_row + 1)` with `max_row = 1 + rows.length` visits exactly the rows
`2 + k` for `k < rows.length`. -/
def appliquer_format_numerique (s : Sheet) : Sheet :=
  NUMERIC_COLUMNS_TO_FORMAT.foldl (fun t name =>
    match colIndexExcel s.headers name with
    | none => t  -- colonne absente
    | some idx =>
      (List.range s.rows.length).foldl (fun u k => setFmt u idx (2 + k) "#,##0.00") t) s

/-- The running `max_length` of column `i` (0-based) in
`ajuster_largeur_colonnes`: the maximum of the rendered lengths of the header
cell and every data cell, a missing cell counting as the empty string. -/
def colMaxLen (s : Sheet) (i : Nat) : Nat :=
  ((s.headers.getD i "").length :: s.rows.map (fun row => (pyStr (row.getD i none)).length)).foldl
    Nat.max 0

/-- `ajuster_largeur_colonnes` (lines 105-119): every column's width becomes
its maximal rendered cell length (header included) plus 2. -/
def ajuster_largeur_colonnes (s : Sheet) : Sheet :=
  (List.range s.headers.length).foldl (fun t i => setWidth t (i + 1) (colMaxLen s i + 2)) s

/-- `df.to_excel(path, index=False)` (line 197): header row first, then the
data rows in column order, no index column, no formats or widths yet. -/
def to_excel (df : Df) : Sheet :=
  let n := (df.map (fun p => p.2.length)).foldl Nat.max 0
  { headers := df.map (fun p => p.1),
    rows := (List.range n).map (fun r => df.map (fun p => p.2.getD r none)),
    fmts := [],
    widths := [] }

/-- The filesystem: existing directories and the written workbook files,
paths being lists of components. -/
structure FS where
  dirs : List (List String)
  files : List (List String × Sheet)
deriving DecidableEq, Repr

/-- Write (or overwrite) the file at path `p`. -/
def writeFile (fs : FS) (p : List String) (s : Sheet) : FS :=
  { fs with files := (p, s) :: fs.files.filter (fun e => !(e.1 == p)) }

/-- The file currently stored at path `p`. -/
def getFile (fs : FS) (p : List String) : Option Sheet :=
  (fs.files.find? (fun e => e.1 == p)).map (fun e => e.2)

/-- `dossier_sortie.mkdir(parents=True, exist_ok=True)` (line 195): create
every prefix of the directory path that does not exist yet. -/
def mkdirParents (fs : FS) (d : List String) : FS :=
  let ps := (List.range d.length).map (fun k => d.take (k + 1))
  { fs with dirs := ps.foldl (fun l q => if q ∈ l then l else l ++ [q]) fs.dirs }

/-- One post-write pass: `load_workbook(path)`, mutate, `wb.save(path)`.
A missing file is an I/O failure carrying the filesystem unchanged. -/
def load_mutate_save (fs : FS) (p : List String) (f : Sheet → Sheet) :
    Except (String × FS) FS :=
  match getFile fs p with
  | none => .error ("IOError: " ++ String.intercalate "/" p, fs)
  | some s => .ok (writeFile fs p (f s))

/-- `pathlib.PurePath.stem`: the file name minus its suffix; a leading or
trailing dot yields no suffix. -/
def fileStem (name : String) : String :=
  let cs := name.toList
  match (cs.reverse.findIdx? (fun ch => ch == '.')) with
  | none => name
  | some j =>
    let i := cs.length - 1 - j
    if 0 < i ∧ i < cs.length - 1 then String.mk (cs.take i) else name

/-- `pathlib.PurePath.suffix` (dot included), used only to state the spec's
claimed output-path convention `<input_stem>_resultats.<ext>` with `<ext>`
the input file's extension. -/
def fileSuffix (name : String) : String :=
  let cs := name.toList
  match (cs.reverse.findIdx? (fun ch => ch == '.')) with
  | none => ""
  | some j =>
    let i := cs.length - 1 - j
    if 0 < i ∧ i < cs.length - 1 then String.mk (cs.drop i) else ""

/-- `analyser_dechargement` (lines 139-202) after the external reading phase:
takes the parsed dataframe `df0` of the input file named `fichierName`,
strips the headers, derives the six columns (a `KeyError` there aborts with
the filesystem untouched), then creates the output directory, writes
`<stem>_resultats.xlsx`, and runs the two post-write passes on the file. -/
def analyser_dechargement (fichierName : String) (df0 : Df) (dossierSortie : List String)
    (fs : FS) : Except (String × FS) (FS × List String) :=
  let df1 := stripHeaders df0
  match calculer df1 with
  | .error e => .error (e, fs)
  | .ok df =>
    let fs1 := mkdirParents fs dossierSortie
    let fichierResultat := dossierSortie ++ [fileStem fichierName ++ "_resultats.xlsx"]
    let fs2 := writeFile fs1 fichierResultat (to_excel df)
    match load_mutate_save fs2 fichierResultat appliquer_format_numerique with
    | .error e => .error e
    | .ok fs3 =>
      match load_mutate_save fs3 fichierResultat ajuster_largeur_colonnes with
      | .error e => .error e
      | .ok fs4 => .ok (fs4, fichierResultat)

/-- `name in df.columns`. -/
def hasCol (df : Df) (name : String) : Bool := df.any (fun p => p.1 == name)

/-- The cells of column `name`, defaulting to `[]` when absent (used only to
state properties of outputs whose columns are known to exist). -/
def getColD (df : Df) (name : String) : List Cell := ((getCol df name).toOption).getD []

/-- The nine raw columns referenced by the derived-column formulas of
lines 173-188. -/
def rawColsReferenced : List String :=
  [COL_VOL_FINAL, COL_VOL_INIT, COL_FIN_DECH, COL_DEBUT_DECH, COL_FIN_PESEE,
   COL_DEBUT_PESEE, COL_POIDS_SORTIE, COL_POIDS_ENTREE, COL_POIDS_EAU]

/-- The six derived columns assigned by lines 173-188. -/
def derivedCols : List String :=
  [COL_VOL_CHARGE_CALCULE, COL_POIDS_EAU_CALCULE, COL_DUREE_OPERATION, COL_TEMPS_TR,
   COL_POIDS_NET_CALCULE, COL_POIDS_NET_RECALCULE]

/-- The result dataframe of a successful `calculer` run, as a function of the
input dataframe and the nine raw columns read from it. -/
def calcShape (df : Df) (vf vi fd dd fp dp so en eau : List Cell) : Df :=
  let c1 := colRound2 (colSub vf vi)
  let c2 := colRound2 (colScale (1 + 6.6 / 100) c1)
  let c5 := colRound2 (colScale (1 - 7 / 100) (colSub (colSub so en) eau))
  let c6 := colRound2 (colScale (1 - 7 / 100) (colSub (colSub so en) c2))
  setCol (setCol (setCol (setCol (setCol (setCol df
    COL_VOL_CHARGE_CALCULE c1)
    COL_POIDS_EAU_CALCULE c2)
    COL_DUREE_OPERATION (colSub fd dd))
    COL_TEMPS_TR (colSub fp dp))
    COL_POIDS_NET_CALCULE c5)
    COL_POIDS_NET_RECALCULE c6

/-- An empty filesystem. -/
def fs0 : FS := { dirs := [], files := [] }

/-- The one-row input table of the spec's end-to-end scenario. -/
def c1df : Df :=
  [(COL_DEBUT_PESEE, [some (.time 0)]), (COL_FIN_PESEE, [some (.time 10)]),
   (COL_DEBUT_DECH, [some (.time 2)]), (COL_FIN_DECH, [some (.time 8)]),
   (COL_VOL_INIT, [some (.num 100)]), (COL_VOL_FINAL, [some (.num 150)]),
   (COL_POIDS_ENTREE, [some (.num 5000)]), (COL_POIDS_SORTIE, [some (.num 5200)]),
   (COL_POIDS_EAU, [some (.num 45)])]

/-- The enriched table the pipeline derives from `c1df` (checked below by
`calculer_c1df`). -/
def c1out : Df :=
  c1df ++ [(COL_VOL_CHARGE_CALCULE, [some (.num 50)]),
    (COL_POIDS_EAU_CALCULE, [some (.num 53.3)]),
    (COL_DUREE_OPERATION, [some (.dur 6)]),
    (COL_TEMPS_TR, [some (.dur 10)]),
    (COL_POIDS_NET_CALCULE, [some (.num 144.15)]),
    (COL_POIDS_NET_RECALCULE, [some (.num 136.43)])]

/-- Like `c1df` but with the measured water weight equal to the estimated one
(50 m³ loaded ⇒ 53.3 kg estimated). -/
def c3df : Df :=
  [(COL_DEBUT_PESEE, [some (.time 0)]), (COL_FIN_PESEE, [some (.time 10)]),
   (COL_DEBUT_DECH, [some (.time 2)]), (COL_FIN_DECH, [some (.time 8)]),
   (COL_VOL_INIT, [some (.num 100)]), (COL_VOL_FINAL, [some (.num 150)]),
   (COL_POIDS_ENTREE, [some (.num 5000)]), (COL_POIDS_SORTIE, [some (.num 5200)]),
   (COL_POIDS_EAU, [some (.num 53.3)])]

/-- The enriched table the pipeline derives from `c3df` (checked below by
`calculer_c3df`). -/
def c3out : Df :=
  c3df ++ [(COL_VOL_CHARGE_CALCULE, [some (.num 50)]),
    (COL_POIDS_EAU_CALCULE, [some (.num 53.3)]),
    (COL_DUREE_OPERATION, [some (.dur 6)]),
    (COL_TEMPS_TR, [some (.dur 10)]),
    (COL_POIDS_NET_CALCULE, [some (.num 136.43)]),
    (COL_POIDS_NET_RECALCULE, [some (.num 136.43)])]

/-- `c1df` without the optional measured-water column `Poids eau (kg)`. -/
def c4df : Df :=
  [(COL_DEBUT_PESEE, [some (.time 0)]), (COL_FIN_PESEE, [some (.time 10)]),
   (COL_DEBUT_DECH, [some (.time 2)]), (COL_FIN_DECH, [some (.time 8)]),
   (COL_VOL_INIT, [some (.num 100)]), (COL_VOL_FINAL, [some (.num 150)]),
   (COL_POIDS_ENTREE, [some (.num 5000)]), (COL_POIDS_SORTIE, [some (.num 5200)])]

/-- `c1df` without the raw column `Volume initial` (the other operands of the
volume formula are present). -/
def c5df : Df :=
  [(COL_DEBUT_PESEE, [some (.time 0)]), (COL_FIN_PESEE, [some (.time 10)]),
   (COL_DEBUT_DECH, [some (.time 2)]), (COL_FIN_DECH, [some (.time 8)]),
   (COL_VOL_FINAL, [some (.num 150)]),
   (COL_POIDS_ENTREE, [some (.num 5000)]), (COL_POIDS_SORTIE, [some (.num 5200)]),
   (COL_POIDS_EAU, [some (.num 45)])]

/-- `c1df` plus a pass-through column and an input column that clashes with
the derived name `Durée opération`. -/
def c10df : Df :=
  c1df ++ [(COL_DUREE_OPERATION, [some (.text "inchangée")]),
           ("Commentaire", [some (.text "RAS")])]

/-- The enriched table the pipeline derives from `c10df` (checked below by
`calculer_c10df`); the clashing input column is overwritten in place. -/
def c10out : Df :=
  c1df ++ [(COL_DUREE_OPERATION, [some (.dur 6)]),
    ("Commentaire", [some (.text "RAS")]),
    (COL_VOL_CHARGE_CALCULE, [some (.num 50)]),
    (COL_POIDS_EAU_CALCULE, [some (.num 53.3)]),
    (COL_TEMPS_TR, [some (.dur 10)]),
    (COL_POIDS_NET_CALCULE, [some (.num 144.15)]),
    (COL_POIDS_NET_RECALCULE, [some (.num 136.43)])]

/-- The output path of the pipeline run on input file `donnees.xls` with
output directory `Out`. -/
def c6path : List String := ["Out", "donnees_resultats.xlsx"]

/-- The sheet written by `to_excel` on the enriched `c1out`, then mutated by
the two post-write passes. -/
def c6sheet : Sheet :=
  ajuster_largeur_colonnes (appliquer_format_numerique (to_excel c1out))

/-- The filesystem after a full pipeline run on `c1df`, input file
`donnees.xls`, output directory `Out`, starting from an empty filesystem. -/
def c6fs : FS :=
  writeFile (writeFile (writeFile (mkdirParents fs0 ["Out"]) c6path (to_excel c1out))
    c6path (appliquer_format_numerique (to_excel c1out))) c6path c6sheet

/-- A sheet whose single column has a 12-character header and an 8-character
cell (the concrete instance named by the column-width claim). -/
def sheetLargeur : Sheet :=
  { headers := ["ColonneDouze"], rows := [[some (.text "12345678")]], fmts := [], widths := [] }


/-- Decidable equality for `Except`, so concrete runs can be checked by
`decide`. -/
instance {e a : Type} [DecidableEq e] [DecidableEq a] : DecidableEq (Except e a) := fun x y =>
  match x, y with
  | .ok u, .ok v =>
    if h : u = v then isTrue (by rw [h]) else isFalse (by intro hc; cases hc; exact h rfl)
  | .error u, .error v =>
    if h : u = v then isTrue (by rw [h]) else isFalse (by intro hc; cases hc; exact h rfl)
  | .ok _, .error _ => isFalse (by intro hc; cases hc)
  | .error _, .ok _ => isFalse (by intro hc; cases hc)

/-- Assigning column `n` then reading `n` yields the assigned cells. -/
theorem getCol_setCol_self (df : Df) (n : String) (c : List Cell) :
    getCol (setCol df n c) n = .ok c := by
  unfold getCol setCol
  by_cases ha : df.any (fun p => p.1 == n)
  · rw [if_pos ha, List.find?_map]
    have hpg : ((fun p : String × List Cell => p.1 == n) ∘
        fun p => if p.1 == n then (n, c) else p) = fun p : String × List Cell => p.1 == n := by
      funext q
      by_cases h : q.1 == n <;> simp [Function.comp, h]
    rw [hpg]
    obtain ⟨q, hq, hq2⟩ := List.any_eq_true.mp ha
    cases hf : df.find? (fun p => p.1 == n) with
    | none => exact absurd hq2 (List.find?_eq_none.mp hf q hq)
    | some r =>
      have hr := List.find?_some hf
      have hrn : r.1 = n := by simpa using hr
      simp [hrn]
  · rw [if_neg ha, List.find?_append]
    have hnone : df.find? (fun p => p.1 == n) = none :=
      List.find?_eq_none.mpr (fun x hx hpx => ha (List.any_eq_true.mpr ⟨x, hx, hpx⟩))
    rw [hnone]
    simp

/-- Assigning column `n` leaves every other column lookup unchanged. -/
theorem getCol_setCol_of_ne {n m : String} (df : Df) (c : List Cell) (hnm : n ≠ m) :
    getCol (setCol df n c) m = getCol df m := by
  unfold getCol setCol
  by_cases ha : df.any (fun p => p.1 == n)
  · rw [if_pos ha, List.find?_map]
    have hpg : ((fun p : String × List Cell => p.1 == m) ∘
        fun p => if p.1 == n then (n, c) else p) = fun p : String × List Cell => p.1 == m := by
      funext q
      by_cases h : q.1 == n
      · have : q.1 = n := by simpa using h
        simp [Function.comp, h, this, hnm]
      · simp [Function.comp, h]
    rw [hpg]
    cases hf : df.find? (fun p => p.1 == m) with
    | none => simp
    | some r =>
      have hr := List.find?_some hf
      have hrm : r.1 = m := by simpa using hr
      have hrn : r.1 ≠ n := fun h => hnm (h ▸ hrm)
      simp [hrn]
  · rw [if_neg ha, List.find?_append]
    cases hf : df.find? (fun p => p.1 == m) with
    | none =>
      have : (n == m) = false := by simpa using hnm
      simp [this]
    | some r => simp

/-- Combined lookup-after-assignment characterisation. -/
theorem getCol_setCol (df : Df) (n m : String) (c : List Cell) :
    getCol (setCol df n c) m = if n = m then .ok c else getCol df m := by
  by_cases h : n = m
  · subst h
    simp [getCol_setCol_self]
  · simp [h, getCol_setCol_of_ne df c h]

/-- A successful `calculer` run forces all nine raw lookups to succeed and
determines the result as `calcShape` of the nine raw columns. -/
theorem calculer_ok_shape {df out : Df} (h : calculer df = .ok out) :
    ∃ vf vi fd dd fp dp so en eau,
      getCol df COL_VOL_FINAL = .ok vf ∧ getCol df COL_VOL_INIT = .ok vi ∧
      getCol df COL_FIN_DECH = .ok fd ∧ getCol df COL_DEBUT_DECH = .ok dd ∧
      getCol df COL_FIN_PESEE = .ok fp ∧ getCol df COL_DEBUT_PESEE = .ok dp ∧
      getCol df COL_POIDS_SORTIE = .ok so ∧ getCol df COL_POIDS_ENTREE = .ok en ∧
      getCol df COL_POIDS_EAU = .ok eau ∧
      out = calcShape df vf vi fd dd fp dp so en eau := by
  have hECFD : COL_POIDS_EAU_CALCULE ≠ COL_FIN_DECH := by decide
  have hVCFD : COL_VOL_CHARGE_CALCULE ≠ COL_FIN_DECH := by decide
  have hECDD : COL_POIDS_EAU_CALCULE ≠ COL_DEBUT_DECH := by decide
  have hVCDD : COL_VOL_CHARGE_CALCULE ≠ COL_DEBUT_DECH := by decide
  have hDOFP : COL_DUREE_OPERATION ≠ COL_FIN_PESEE := by decide
  have hECFP : COL_POIDS_EAU_CALCULE ≠ COL_FIN_PESEE := by decide
  have hVCFP : COL_VOL_CHARGE_CALCULE ≠ COL_FIN_PESEE := by decide
  have hDODP : COL_DUREE_OPERATION ≠ COL_DEBUT_PESEE := by decide
  have hECDP : COL_POIDS_EAU_CALCULE ≠ COL_DEBUT_PESEE := by decide
  have hVCDP : COL_VOL_CHARGE_CALCULE ≠ COL_DEBUT_PESEE := by decide
  have hTTSO : COL_TEMPS_TR ≠ COL_POIDS_SORTIE := by decide
  have hDOSO : COL_DUREE_OPERATION ≠ COL_POIDS_SORTIE := by decide
  have hECSO : COL_POIDS_EAU_CALCULE ≠ COL_POIDS_SORTIE := by decide
  have hVCSO : COL_VOL_CHARGE_CALCULE ≠ COL_POIDS_SORTIE := by decide
  have hTTEN : COL_TEMPS_TR ≠ COL_POIDS_ENTREE := by decide
  have hDOEN : COL_DUREE_OPERATION ≠ COL_POIDS_ENTREE := by decide
  have hECEN : COL_POIDS_EAU_CALCULE ≠ COL_POIDS_ENTREE := by decide
  have hVCEN : COL_VOL_CHARGE_CALCULE ≠ COL_POIDS_ENTREE := by decide
  have hTTEAU : COL_TEMPS_TR ≠ COL_POIDS_EAU := by decide
  have hDOEAU : COL_DUREE_OPERATION ≠ COL_POIDS_EAU := by decide
  have hECEAU : COL_POIDS_EAU_CALCULE ≠ COL_POIDS_EAU := by decide
  have hVCEAU : COL_VOL_CHARGE_CALCULE ≠ COL_POIDS_EAU := by decide
  have hNCSO : COL_POIDS_NET_CALCULE ≠ COL_POIDS_SORTIE := by decide
  have hNCEN : COL_POIDS_NET_CALCULE ≠ COL_POIDS_ENTREE := by decide
  have hNCEC : COL_POIDS_NET_CALCULE ≠ COL_POIDS_EAU_CALCULE := by decide
  have hTTEC : COL_TEMPS_TR ≠ COL_POIDS_EAU_CALCULE := by decide
  have hDOEC : COL_DUREE_OPERATION ≠ COL_POIDS_EAU_CALCULE := by decide
  unfold calculer at h
  simp only [] at h
  repeat' split at h
  all_goals try exact Except.noConfusion h
  rename_i x1 v1 h1 x2 v2 h2 x3 v3 h3 x4 v4 h4 x5 v5 h5 x6 v6 h6 x7 v7 h7 x8 v8 h8 x9 v9 h9 x10 v10 h10 x11 v11 h11 x12 v12 h12 x13 v13 h13
  rw [getCol_setCol_self] at h3
  injection h3 with h3
  subst h3
  rw [getCol_setCol_of_ne _ _ hECFD, getCol_setCol_of_ne _ _ hVCFD] at h4
  rw [getCol_setCol_of_ne _ _ hECDD, getCol_setCol_of_ne _ _ hVCDD] at h5
  rw [getCol_setCol_of_ne _ _ hDOFP, getCol_setCol_of_ne _ _ hECFP,
      getCol_setCol_of_ne _ _ hVCFP] at h6
  rw [getCol_setCol_of_ne _ _ hDODP, getCol_setCol_of_ne _ _ hECDP,
      getCol_setCol_of_ne _ _ hVCDP] at h7
  rw [getCol_setCol_of_ne _ _ hTTSO, getCol_setCol_of_ne _ _ hDOSO,
      getCol_setCol_of_ne _ _ hECSO, getCol_setCol_of_ne _ _ hVCSO] at h8
  rw [getCol_setCol_of_ne _ _ hTTEN, getCol_setCol_of_ne _ _ hDOEN,
      getCol_setCol_of_ne _ _ hECEN, getCol_setCol_of_ne _ _ hVCEN] at h9
  rw [getCol_setCol_of_ne _ _ hTTEAU, getCol_setCol_of_ne _ _ hDOEAU,
      getCol_setCol_of_ne _ _ hECEAU, getCol_setCol_of_ne _ _ hVCEAU] at h10
  rw [getCol_setCol_of_ne _ _ hNCSO, getCol_setCol_of_ne _ _ hTTSO,
      getCol_setCol_of_ne _ _ hDOSO, getCol_setCol_of_ne _ _ hECSO,
      getCol_setCol_of_ne _ _ hVCSO, h8] at h11
  injection h11 with h11
  subst h11
  rw [getCol_setCol_of_ne _ _ hNCEN, getCol_setCol_of_ne _ _ hTTEN,
      getCol_setCol_of_ne _ _ hDOEN, getCol_setCol_of_ne _ _ hECEN,
      getCol_setCol_of_ne _ _ hVCEN, h9] at h12
  injection h12 with h12
  subst h12
  rw [getCol_setCol_of_ne _ _ hNCEC, getCol_setCol_of_ne _ _ hTTEC,
      getCol_setCol_of_ne _ _ hDOEC, getCol_setCol_self] at h13
  injection h13 with h13
  subst h13
  injection h with h
  refine ⟨v1, v2, v4, v5, v6, v7, v8, v9, v10, h1, h2, h4, h5, h6, h7, h8, h9, h10, ?_⟩
  rw [← h]
  simp only [calcShape]


/-- Evaluation of `calculer` on the end-to-end sample row. -/
theorem calculer_c1df : calculer c1df = .ok c1out := by
  simp [calculer, c1df, c1out, getCol, setCol, colSub, colScale, colRound2, cellSub,
    cellScale, cellRound2, COL_DEBUT_PESEE, COL_FIN_PESEE, COL_DEBUT_DECH,
    COL_FIN_DECH, COL_DUREE_OPERATION, COL_TEMPS_TR, COL_VOL_INIT,
    COL_VOL_FINAL, COL_POIDS_ENTREE, COL_POIDS_SORTIE, COL_POIDS_EAU,
    COL_VOL_CHARGE_CALCULE, COL_POIDS_EAU_CALCULE, COL_POIDS_NET_CALCULE,
    COL_POIDS_NET_RECALCULE, List.find?, List.any]
  norm_num [round2, roundHalfEven]

/-- Evaluation of `calculer` on the row whose measured water weight equals the
estimated one. -/
theorem calculer_c3df : calculer c3df = .ok c3out := by
  simp [calculer, c3df, c3out, getCol, setCol, colSub, colScale, colRound2, cellSub,
    cellScale, cellRound2, COL_DEBUT_PESEE, COL_FIN_PESEE, COL_DEBUT_DECH,
    COL_FIN_DECH, COL_DUREE_OPERATION, COL_TEMPS_TR, COL_VOL_INIT,
    COL_VOL_FINAL, COL_POIDS_ENTREE, COL_POIDS_SORTIE, COL_POIDS_EAU,
    COL_VOL_CHARGE_CALCULE, COL_POIDS_EAU_CALCULE, COL_POIDS_NET_CALCULE,
    COL_POIDS_NET_RECALCULE, List.find?, List.any]
  norm_num [round2, roundHalfEven]

/-- Header stripping is the identity on the sample tables (their headers carry
no surrounding whitespace). -/
theorem stripHeaders_c10df : stripHeaders c10df = c10df := by decide

theorem stripHeaders_c1df : stripHeaders c1df = c1df := by decide

theorem stripHeaders_c4df : stripHeaders c4df = c4df := by decide

theorem stripHeaders_c5df : stripHeaders c5df = c5df := by decide

/-- Evaluation of `calculer` on the table with a clashing input column. -/
theorem calculer_c10df : calculer (stripHeaders c10df) = .ok c10out := by
  rw [stripHeaders_c10df]
  simp [calculer, c10df, c1df, c10out, getCol, setCol, colSub, colScale, colRound2,
    cellSub, cellScale, cellRound2, COL_DEBUT_PESEE, COL_FIN_PESEE, COL_DEBUT_DECH,
    COL_FIN_DECH, COL_DUREE_OPERATION, COL_TEMPS_TR, COL_VOL_INIT,
    COL_VOL_FINAL, COL_POIDS_ENTREE, COL_POIDS_SORTIE, COL_POIDS_EAU,
    COL_VOL_CHARGE_CALCULE, COL_POIDS_EAU_CALCULE, COL_POIDS_NET_CALCULE,
    COL_POIDS_NET_RECALCULE, List.find?, List.any]
  norm_num [round2, roundHalfEven]

/-- `calculer` raises `KeyError` on the table lacking the water column. -/
theorem calculer_c4df : calculer c4df = .error ("KeyError: " ++ COL_POIDS_EAU) := by
  simp [calculer, c4df, getCol, setCol, colSub, colScale, colRound2, cellSub,
    cellScale, cellRound2, COL_DEBUT_PESEE, COL_FIN_PESEE, COL_DEBUT_DECH,
    COL_FIN_DECH, COL_DUREE_OPERATION, COL_TEMPS_TR, COL_VOL_INIT,
    COL_VOL_FINAL, COL_POIDS_ENTREE, COL_POIDS_SORTIE, COL_POIDS_EAU,
    COL_VOL_CHARGE_CALCULE, COL_POIDS_EAU_CALCULE, COL_POIDS_NET_CALCULE,
    COL_POIDS_NET_RECALCULE, List.find?, List.any]

/-- C1 (counterexample): on the spec's end-to-end input row the deriver
produces `net_weight_estimated = 136.43`, not the `136.73` the claim states:
`round((5200 - 5000 - 53.3) * 0.93, 2) = round(136.431, 2) = 136.43`. -/
theorem C1_spec_value_refuted :
    calculer c1df = .ok c1out ∧
    getColD c1out COL_POIDS_NET_RECALCULE = [some (.num 136.43)] ∧
    getColD c1out COL_POIDS_NET_RECALCULE ≠ [some (.num 136.73)] := by
  refine ⟨calculer_c1df, ?_, ?_⟩ <;>
    simp [getColD, getCol, Except.toOption, c1out, c1df, List.find?, COL_DEBUT_PESEE, COL_FIN_PESEE,
      COL_DEBUT_DECH, COL_FIN_DECH, COL_DUREE_OPERATION, COL_TEMPS_TR, COL_VOL_INIT,
      COL_VOL_FINAL, COL_POIDS_ENTREE, COL_POIDS_SORTIE, COL_POIDS_EAU,
      COL_VOL_CHARGE_CALCULE, COL_POIDS_EAU_CALCULE, COL_POIDS_NET_CALCULE,
      COL_POIDS_NET_RECALCULE]
  norm_num

/-- C1 (amended): for the input row with `volume_initial = 100.0`,
`volume_final = 150.0`, `weight_in = 5000.0`, `weight_out = 5200.0`,
`water_weight_measured = 45.0`, the Metric Deriver produces
`volume_loaded = 50.0`, `water_weight_estimated = 53.3`,
`net_weight_measured = 144.15` and `net_weight_estimated = 136.43`. -/
theorem C1_end_to_end :
    calculer c1df = .ok c1out ∧
    getColD c1out COL_VOL_CHARGE_CALCULE = [some (.num 50)] ∧
    getColD c1out COL_POIDS_EAU_CALCULE = [some (.num 53.3)] ∧
    getColD c1out COL_POIDS_NET_CALCULE = [some (.num 144.15)] ∧
    getColD c1out COL_POIDS_NET_RECALCULE = [some (.num 136.43)] := by
  refine ⟨calculer_c1df, ?_, ?_, ?_, ?_⟩ <;>
    simp [getColD, getCol, Except.toOption, c1out, c1df, List.find?, COL_DEBUT_PESEE, COL_FIN_PESEE,
      COL_DEBUT_DECH, COL_FIN_DECH, COL_DUREE_OPERATION, COL_TEMPS_TR, COL_VOL_INIT,
      COL_VOL_FINAL, COL_POIDS_ENTREE, COL_POIDS_SORTIE, COL_POIDS_EAU,
      COL_VOL_CHARGE_CALCULE, COL_POIDS_EAU_CALCULE, COL_POIDS_NET_CALCULE,
      COL_POIDS_NET_RECALCULE]

/-- C4 (code bug): when the optional column `Poids eau (kg)` is absent, the
net-weight-measured assignment raises `KeyError`, which aborts the whole run
(with the filesystem untouched) before `net_weight_estimated` is computed —
contradicting the documented tolerant behaviour. -/
theorem C4_missing_water_column_aborts :
    calculer c4df = .error ("KeyError: " ++ COL_POIDS_EAU) ∧
    analyser_dechargement "donnees.xlsx" c4df ["Data_Analysis", "2026-10-12"] fs0 =
      .error ("KeyError: " ++ COL_POIDS_EAU, fs0) := by
  refine ⟨calculer_c4df, ?_⟩
  simp [analyser_dechargement, stripHeaders_c4df, calculer_c4df]

/-- `getColD` after assigning the same column. -/
theorem getColD_setCol_self (df : Df) (n : String) (c : List Cell) :
    getColD (setCol df n c) n = c := by
  simp [getColD, getCol_setCol_self, Except.toOption]

/-- `getColD` after assigning a different column. -/
theorem getColD_setCol_of_ne {n m : String} (df : Df) (c : List Cell) (hnm : n ≠ m) :
    getColD (setCol df n c) m = getColD df m := by
  simp [getColD, getCol_setCol_of_ne df c hnm]

/-- A successful `getCol` determines `getColD`. -/
theorem getColD_eq_of_getCol_ok {df : Df} {n : String} {v : List Cell}
    (h : getCol df n = .ok v) : getColD df n = v := by
  simp [getColD, h, Except.toOption]

/-- A successful `getCol` means the column is present. -/
theorem hasCol_of_getCol_ok {df : Df} {n : String} {v : List Cell}
    (h : getCol df n = .ok v) : hasCol df n = true := by
  unfold getCol at h
  cases hf : List.find? (fun p => p.1 == n) df with
  | none => rw [hf] at h; cases h
  | some r =>
    have hr := List.find?_some hf
    have hmem := List.mem_of_find?_eq_some hf
    exact List.any_eq_true.mpr ⟨r, hmem, hr⟩

/-- Rows are compared element-wise: changing only the subtracted water column
changes the net-weight column only where that column differs. -/
theorem colNet_getElem_congr (k : ℚ) (a w wp : List Cell) (i : Nat)
    (hw : w[i]? = wp[i]?) :
    (colRound2 (colScale k (colSub a w)))[i]? =
      (colRound2 (colScale k (colSub a wp)))[i]? := by
  simp only [colRound2, colScale, colSub, List.getElem?_map, List.getElem?_zipWith]
  rw [hw]

/-- C2: for every valid row, `water_weight_estimated` is
`round(volume_loaded * 1.066, 2)` computed from the already-rounded
`volume_loaded = round(volume_final - volume_initial, 2)`: rounding applies to
the result of each expression, not to intermediate terms. -/
theorem C2_water_from_rounded_volume {df out : Df} (h : calculer df = .ok out) :
    getColD out COL_POIDS_EAU_CALCULE =
      (getColD out COL_VOL_CHARGE_CALCULE).map (fun c => cellRound2 (cellScale 1.066 c)) ∧
    ∃ vf vi, getCol df COL_VOL_FINAL = .ok vf ∧ getCol df COL_VOL_INIT = .ok vi ∧
      getColD out COL_VOL_CHARGE_CALCULE = colRound2 (colSub vf vi) := by
  obtain ⟨vf, vi, fd, dd, fp, dp, so, en, eau, hvf, hvi, -, -, -, -, -, -, -, hout⟩ :=
    calculer_ok_shape h
  subst hout
  have hEC : getColD (calcShape df vf vi fd dd fp dp so en eau) COL_POIDS_EAU_CALCULE
      = colRound2 (colScale (1 + 6.6 / 100) (colRound2 (colSub vf vi))) := by
    simp only [calcShape]
    rw [getColD_setCol_of_ne _ _ (show COL_POIDS_NET_RECALCULE ≠ COL_POIDS_EAU_CALCULE by decide),
        getColD_setCol_of_ne _ _ (show COL_POIDS_NET_CALCULE ≠ COL_POIDS_EAU_CALCULE by decide),
        getColD_setCol_of_ne _ _ (show COL_TEMPS_TR ≠ COL_POIDS_EAU_CALCULE by decide),
        getColD_setCol_of_ne _ _ (show COL_DUREE_OPERATION ≠ COL_POIDS_EAU_CALCULE by decide),
        getColD_setCol_self]
  have hVC : getColD (calcShape df vf vi fd dd fp dp so en eau) COL_VOL_CHARGE_CALCULE
      = colRound2 (colSub vf vi) := by
    simp only [calcShape]
    rw [getColD_setCol_of_ne _ _ (show COL_POIDS_NET_RECALCULE ≠ COL_VOL_CHARGE_CALCULE by decide),
        getColD_setCol_of_ne _ _ (show COL_POIDS_NET_CALCULE ≠ COL_VOL_CHARGE_CALCULE by decide),
        getColD_setCol_of_ne _ _ (show COL_TEMPS_TR ≠ COL_VOL_CHARGE_CALCULE by decide),
        getColD_setCol_of_ne _ _ (show COL_DUREE_OPERATION ≠ COL_VOL_CHARGE_CALCULE by decide),
        getColD_setCol_of_ne _ _ (show COL_POIDS_EAU_CALCULE ≠ COL_VOL_CHARGE_CALCULE by decide),
        getColD_setCol_self]
  rw [hEC, hVC]
  constructor
  · have h66 : (1 + 6.6 / 100 : ℚ) = 1.066 := by norm_num
    rw [h66]
    simp [colRound2, colScale, List.map_map, Function.comp]
  · exact ⟨vf, vi, hvf, hvi, rfl⟩

/-- C2 witness: the relation instantiated on the sample end-to-end row. -/
theorem C2_water_from_rounded_volume_sample :
    getColD c1out COL_POIDS_EAU_CALCULE =
      (getColD c1out COL_VOL_CHARGE_CALCULE).map (fun c => cellRound2 (cellScale 1.066 c)) ∧
    ∃ vf vi, getCol c1df COL_VOL_FINAL = .ok vf ∧ getCol c1df COL_VOL_INIT = .ok vi ∧
      getColD c1out COL_VOL_CHARGE_CALCULE = colRound2 (colSub vf vi) :=
  C2_water_from_rounded_volume calculer_c1df

/-- C3: on any row whose measured water weight cell equals the estimated water
weight cell (the weight operands being present), the two net-weight columns
agree, since the two formulas differ only in the subtracted water term. -/
theorem C3_equal_water_equal_nets {df out : Df} (h : calculer df = .ok out) (i : Nat)
    (_hso : ∃ q, (getColD out COL_POIDS_SORTIE)[i]? = some (some (.num q)))
    (_hen : ∃ q, (getColD out COL_POIDS_ENTREE)[i]? = some (some (.num q)))
    (heau : (getColD out COL_POIDS_EAU)[i]? = (getColD out COL_POIDS_EAU_CALCULE)[i]?) :
    (getColD out COL_POIDS_NET_CALCULE)[i]? = (getColD out COL_POIDS_NET_RECALCULE)[i]? := by
  obtain ⟨vf, vi, fd, dd, fp, dp, so, en, eau, hvf, hvi, -, -, -, -, -, -, heau2, hout⟩ :=
    calculer_ok_shape h
  subst hout
  have hNC : getColD (calcShape df vf vi fd dd fp dp so en eau) COL_POIDS_NET_CALCULE
      = colRound2 (colScale (1 - 7 / 100) (colSub (colSub so en) eau)) := by
    simp only [calcShape]
    rw [getColD_setCol_of_ne _ _ (show COL_POIDS_NET_RECALCULE ≠ COL_POIDS_NET_CALCULE by decide),
        getColD_setCol_self]
  have hNR : getColD (calcShape df vf vi fd dd fp dp so en eau) COL_POIDS_NET_RECALCULE
      = colRound2 (colScale (1 - 7 / 100) (colSub (colSub so en)
          (colRound2 (colScale (1 + 6.6 / 100) (colRound2 (colSub vf vi)))))) := by
    simp only [calcShape]
    rw [getColD_setCol_self]
  have hEAU : getColD (calcShape df vf vi fd dd fp dp so en eau) COL_POIDS_EAU = eau := by
    simp only [calcShape]
    rw [getColD_setCol_of_ne _ _ (show COL_POIDS_NET_RECALCULE ≠ COL_POIDS_EAU by decide),
        getColD_setCol_of_ne _ _ (show COL_POIDS_NET_CALCULE ≠ COL_POIDS_EAU by decide),
        getColD_setCol_of_ne _ _ (show COL_TEMPS_TR ≠ COL_POIDS_EAU by decide),
        getColD_setCol_of_ne _ _ (show COL_DUREE_OPERATION ≠ COL_POIDS_EAU by decide),
        getColD_setCol_of_ne _ _ (show COL_POIDS_EAU_CALCULE ≠ COL_POIDS_EAU by decide),
        getColD_setCol_of_ne _ _ (show COL_VOL_CHARGE_CALCULE ≠ COL_POIDS_EAU by decide),
        getColD_eq_of_getCol_ok heau2]
  have hECv : getColD (calcShape df vf vi fd dd fp dp so en eau) COL_POIDS_EAU_CALCULE
      = colRound2 (colScale (1 + 6.6 / 100) (colRound2 (colSub vf vi))) := by
    simp only [calcShape]
    rw [getColD_setCol_of_ne _ _ (show COL_POIDS_NET_RECALCULE ≠ COL_POIDS_EAU_CALCULE by decide),
        getColD_setCol_of_ne _ _ (show COL_POIDS_NET_CALCULE ≠ COL_POIDS_EAU_CALCULE by decide),
        getColD_setCol_of_ne _ _ (show COL_TEMPS_TR ≠ COL_POIDS_EAU_CALCULE by decide),
        getColD_setCol_of_ne _ _ (show COL_DUREE_OPERATION ≠ COL_POIDS_EAU_CALCULE by decide),
        getColD_setCol_self]
  rw [hNC, hNR]
  apply colNet_getElem_congr
  rw [hEAU, hECv] at heau
  exact heau

/-- C3 witness: on the sample row with measured water 53.3 kg (equal to the
estimate), the two net weights coincide. -/
theorem C3_equal_water_equal_nets_sample :
    (getColD c3out COL_POIDS_NET_CALCULE)[0]? = (getColD c3out COL_POIDS_NET_RECALCULE)[0]? :=
  C3_equal_water_equal_nets calculer_c3df 0
    ⟨5200, by simp [getColD, getCol, Except.toOption, c3out, c3df, List.find?,
      COL_DEBUT_PESEE, COL_FIN_PESEE, COL_DEBUT_DECH, COL_FIN_DECH, COL_DUREE_OPERATION,
      COL_TEMPS_TR, COL_VOL_INIT, COL_VOL_FINAL, COL_POIDS_ENTREE, COL_POIDS_SORTIE,
      COL_POIDS_EAU, COL_VOL_CHARGE_CALCULE, COL_POIDS_EAU_CALCULE, COL_POIDS_NET_CALCULE,
      COL_POIDS_NET_RECALCULE]⟩
    ⟨5000, by simp [getColD, getCol, Except.toOption, c3out, c3df, List.find?,
      COL_DEBUT_PESEE, COL_FIN_PESEE, COL_DEBUT_DECH, COL_FIN_DECH, COL_DUREE_OPERATION,
      COL_TEMPS_TR, COL_VOL_INIT, COL_VOL_FINAL, COL_POIDS_ENTREE, COL_POIDS_SORTIE,
      COL_POIDS_EAU, COL_VOL_CHARGE_CALCULE, COL_POIDS_EAU_CALCULE, COL_POIDS_NET_CALCULE,
      COL_POIDS_NET_RECALCULE]⟩
    (by simp [getColD, getCol, Except.toOption, c3out, c3df, List.find?,
      COL_DEBUT_PESEE, COL_FIN_PESEE, COL_DEBUT_DECH, COL_FIN_DECH, COL_DUREE_OPERATION,
      COL_TEMPS_TR, COL_VOL_INIT, COL_VOL_FINAL, COL_POIDS_ENTREE, COL_POIDS_SORTIE,
      COL_POIDS_EAU, COL_VOL_CHARGE_CALCULE, COL_POIDS_EAU_CALCULE, COL_POIDS_NET_CALCULE,
      COL_POIDS_NET_RECALCULE])

/-- C5: when a raw column referenced by a derived-column formula is missing
from the (header-stripped) input while the other referenced raw columns are
present, the run signals a key error that propagates to the caller with the
filesystem untouched — nothing is written before the failure. -/
theorem C5_missing_raw_column_aborts (name : String) (df : Df) (dossier : List String)
    (fs : FS) (c : String) (hc : c ∈ rawColsReferenced)
    (hmiss : hasCol (stripHeaders df) c = false)
    (_hothers : ∀ d ∈ rawColsReferenced, d ≠ c → hasCol (stripHeaders df) d = true) :
    ∃ e, analyser_dechargement name df dossier fs = .error (e, fs) := by
  cases hcalc : calculer (stripHeaders df) with
  | error e => exact ⟨e, by simp [analyser_dechargement, hcalc]⟩
  | ok out =>
    exfalso
    obtain ⟨vf, vi, fd, dd, fp, dp, so, en, eau, hvf, hvi, hfd, hdd, hfp, hdp, hso, hen, heau, -⟩ :=
      calculer_ok_shape hcalc
    simp only [rawColsReferenced, List.mem_cons, List.not_mem_nil, or_false] at hc
    rcases hc with rfl | rfl | rfl | rfl | rfl | rfl | rfl | rfl | rfl
    · simp [hasCol_of_getCol_ok hvf] at hmiss
    · simp [hasCol_of_getCol_ok hvi] at hmiss
    · simp [hasCol_of_getCol_ok hfd] at hmiss
    · simp [hasCol_of_getCol_ok hdd] at hmiss
    · simp [hasCol_of_getCol_ok hfp] at hmiss
    · simp [hasCol_of_getCol_ok hdp] at hmiss
    · simp [hasCol_of_getCol_ok hso] at hmiss
    · simp [hasCol_of_getCol_ok hen] at hmiss
    · simp [hasCol_of_getCol_ok heau] at hmiss

/-- C5 witness: dropping `Volume initial` (all other raw columns present)
aborts the run with the filesystem unchanged. -/
theorem C5_missing_raw_column_aborts_sample :
    ∃ e, analyser_dechargement "donnees.xlsx" c5df ["Out"] fs0 = .error (e, fs0) :=
  C5_missing_raw_column_aborts "donnees.xlsx" c5df ["Out"] fs0 COL_VOL_INIT
    (by decide) (by decide) (by decide)

/-- C10: every input column whose (stripped) header is not one of the six
derived names passes through `calculer` with all its values unchanged, while
an input column named like a derived column — here `Durée opération` — is
silently overwritten in place by the derived computation. -/
theorem C10_passthrough_and_clash {df out : Df} (h : calculer (stripHeaders df) = .ok out)
    (c : String) (hc : c ∉ derivedCols) :
    getCol out c = getCol (stripHeaders df) c ∧
    (calculer (stripHeaders c10df) = .ok c10out ∧
      getColD c10df COL_DUREE_OPERATION = [some (.text "inchangée")] ∧
      getColD c10out COL_DUREE_OPERATION = [some (.dur 6)] ∧
      getColD c10out COL_DUREE_OPERATION ≠ getColD c10df COL_DUREE_OPERATION) := by
  constructor
  · obtain ⟨vf, vi, fd, dd, fp, dp, so, en, eau, -, -, -, -, -, -, -, -, -, hout⟩ :=
      calculer_ok_shape h
    subst hout
    simp only [derivedCols, List.mem_cons, List.not_mem_nil, or_false, not_or] at hc
    obtain ⟨h1, h2, h3, h4, h5, h6⟩ := hc
    simp only [calcShape]
    rw [getCol_setCol_of_ne _ _ (Ne.symm h6), getCol_setCol_of_ne _ _ (Ne.symm h5),
        getCol_setCol_of_ne _ _ (Ne.symm h4), getCol_setCol_of_ne _ _ (Ne.symm h3),
        getCol_setCol_of_ne _ _ (Ne.symm h2), getCol_setCol_of_ne _ _ (Ne.symm h1)]
  · refine ⟨calculer_c10df, ?_, ?_, ?_⟩
    · simp [getColD, getCol, Except.toOption, c10df, c1df, List.find?,
        COL_DEBUT_PESEE, COL_FIN_PESEE, COL_DEBUT_DECH, COL_FIN_DECH, COL_DUREE_OPERATION,
        COL_TEMPS_TR, COL_VOL_INIT, COL_VOL_FINAL, COL_POIDS_ENTREE, COL_POIDS_SORTIE,
        COL_POIDS_EAU]
    · simp [getColD, getCol, Except.toOption, c10out, c1df, List.find?,
        COL_DEBUT_PESEE, COL_FIN_PESEE, COL_DEBUT_DECH, COL_FIN_DECH, COL_DUREE_OPERATION,
        COL_TEMPS_TR, COL_VOL_INIT, COL_VOL_FINAL, COL_POIDS_ENTREE, COL_POIDS_SORTIE,
        COL_POIDS_EAU, COL_VOL_CHARGE_CALCULE, COL_POIDS_EAU_CALCULE, COL_POIDS_NET_CALCULE,
        COL_POIDS_NET_RECALCULE]
    · simp [getColD, getCol, Except.toOption, c10out, c10df, c1df, List.find?,
        COL_DEBUT_PESEE, COL_FIN_PESEE, COL_DEBUT_DECH, COL_FIN_DECH, COL_DUREE_OPERATION,
        COL_TEMPS_TR, COL_VOL_INIT, COL_VOL_FINAL, COL_POIDS_ENTREE, COL_POIDS_SORTIE,
        COL_POIDS_EAU, COL_VOL_CHARGE_CALCULE, COL_POIDS_EAU_CALCULE, COL_POIDS_NET_CALCULE,
        COL_POIDS_NET_RECALCULE]

/-- C10 witness: the extra column `Commentaire` passes through unchanged on
the sample table with a clashing `Durée opération` input column. -/
theorem C10_passthrough_and_clash_sample :
    getCol c10out "Commentaire" = getCol (stripHeaders c10df) "Commentaire" ∧
    (calculer (stripHeaders c10df) = .ok c10out ∧
      getColD c10df COL_DUREE_OPERATION = [some (.text "inchangée")] ∧
      getColD c10out COL_DUREE_OPERATION = [some (.dur 6)] ∧
      getColD c10out COL_DUREE_OPERATION ≠ getColD c10df COL_DUREE_OPERATION) :=
  C10_passthrough_and_clash calculer_c10df "Commentaire" (by decide)

/-- Reading back the path just written yields the written sheet. -/
theorem getFile_writeFile_self (fs : FS) (p : List String) (s : Sheet) :
    getFile (writeFile fs p s) p = some s := by
  simp [getFile, writeFile]

/-- Overwriting a path twice is the same as writing it once. -/
theorem writeFile_writeFile (fs : FS) (p : List String) (a b : Sheet) :
    writeFile (writeFile fs p a) p b = writeFile fs p b := by
  unfold writeFile
  simp only [FS.mk.injEq, and_true, true_and]
  rw [List.filter_cons]
  simp only [beq_self_eq_true, Bool.not_true, Bool.false_eq_true, if_false]
  rw [List.filter_filter]
  congr 1
  apply List.filter_congr
  intro x hx
  exact Bool.and_self _

/-- Members survive the insert-if-absent fold. -/
theorem mem_insFold_of_mem (L : List (List String)) (l0 : List (List String))
    (x : List String) (hx : x ∈ l0) :
    x ∈ L.foldl (fun l q => if q ∈ l then l else l ++ [q]) l0 := by
  induction L generalizing l0 with
  | nil => exact hx
  | cons a L ih =>
    simp only [List.foldl_cons]
    apply ih
    by_cases h : a ∈ l0
    · simpa [h] using hx
    · simp [h, List.mem_append, hx]

/-- Every processed element ends up in the insert-if-absent fold. -/
theorem mem_insFold (L : List (List String)) (l0 : List (List String))
    (x : List String) (hx : x ∈ L) :
    x ∈ L.foldl (fun l q => if q ∈ l then l else l ++ [q]) l0 := by
  induction L generalizing l0 with
  | nil => cases hx
  | cons a L ih =>
    simp only [List.foldl_cons]
    rcases List.mem_cons.mp hx with rfl | hx2
    · apply mem_insFold_of_mem
      by_cases h : x ∈ l0
      · simp [h]
      · simp [h, List.mem_append]
    · exact ih _ hx2

/-- `mkdir(parents=True, exist_ok=True)`: every prefix of the requested
directory exists afterwards. -/
theorem mem_dirs_mkdirParents (fs : FS) (d : List String) (k : Nat) (hk : k < d.length) :
    d.take (k + 1) ∈ (mkdirParents fs d).dirs := by
  unfold mkdirParents
  apply mem_insFold
  exact List.mem_map.mpr ⟨k, List.mem_range.mpr hk, rfl⟩

/-- Normal form of a successful pipeline run: the output path is
`<dossier>/<stem>_resultats.xlsx`, the directory tree is created, the sheet is
written and then mutated in place by the two post-write passes. -/
theorem analyser_ok_normal {df0 out : Df} (name : String) (dossier : List String) (fs : FS)
    (hcalc : calculer (stripHeaders df0) = .ok out) :
    analyser_dechargement name df0 dossier fs =
      .ok (writeFile (writeFile (writeFile (mkdirParents fs dossier)
            (dossier ++ [fileStem name ++ "_resultats.xlsx"]) (to_excel out))
          (dossier ++ [fileStem name ++ "_resultats.xlsx"])
            (appliquer_format_numerique (to_excel out)))
        (dossier ++ [fileStem name ++ "_resultats.xlsx"])
          (ajuster_largeur_colonnes (appliquer_format_numerique (to_excel out))),
        dossier ++ [fileStem name ++ "_resultats.xlsx"]) := by
  unfold analyser_dechargement
  simp only []
  rw [hcalc]
  simp [load_mutate_save, getFile_writeFile_self]

/-- The concrete pipeline run used by the exporter witnesses: the `.xls` input
produces an `.xlsx` output under `Out`. -/
theorem analyser_c1_run :
    analyser_dechargement "donnees.xls" c1df ["Out"] fs0 = .ok (c6fs, c6path) := by
  have hc : calculer (stripHeaders c1df) = .ok c1out := by
    rw [stripHeaders_c1df]; exact calculer_c1df
  have h := analyser_ok_normal "donnees.xls" ["Out"] fs0 hc
  rw [show (["Out"] ++ [fileStem "donnees.xls" ++ "_resultats.xlsx"] : List String) = c6path
    by decide] at h
  simpa [c6fs, c6sheet] using h

/-- C6 (counterexample): the output file name always carries the `.xlsx`
extension — for the input `donnees.xls` the written path is
`Out/donnees_resultats.xlsx`, not `Out/donnees_resultats.xls` as the claimed
`<input_stem>_resultats.<ext>` convention would demand. -/
theorem C6_extension_not_preserved :
    analyser_dechargement "donnees.xls" c1df ["Out"] fs0 =
      .ok (c6fs, ["Out", "donnees_resultats.xlsx"]) ∧
    (["Out", "donnees_resultats.xlsx"] : List String) ≠
      ["Out", fileStem "donnees.xls" ++ "_resultats" ++ fileSuffix "donnees.xls"] := by
  constructor
  · have h := analyser_c1_run
    rwa [show c6path = ["Out", "donnees_resultats.xlsx"] by decide] at h
  · decide

/-- C6 (amended): a successful run returns the deterministic path
`<output_dir>/<input_stem>_resultats.xlsx` (the extension is always `.xlsx`,
whatever the input extension), creates the output directory including its
parents, upserts exactly that one file, and a second call with the same
arguments succeeds and overwrites the same path. -/
theorem C6_output_path (name : String) (df : Df) (dossier : List String) (fs : FS)
    (fsp : FS) (p : List String)
    (h : analyser_dechargement name df dossier fs = .ok (fsp, p)) :
    p = dossier ++ [fileStem name ++ "_resultats.xlsx"] ∧
    (∀ k, k < dossier.length → dossier.take (k + 1) ∈ fsp.dirs) ∧
    (∃ s, fsp.files = (p, s) :: fs.files.filter (fun e => !(e.1 == p))) ∧
    (∃ fs2, analyser_dechargement name df dossier fsp = .ok (fs2, p)) := by
  cases hcalc : calculer (stripHeaders df) with
  | error e => simp [analyser_dechargement, hcalc] at h
  | ok out =>
    rw [analyser_ok_normal name dossier fs hcalc] at h
    injection h with h
    injection h with hfs hp
    subst hfs
    subst hp
    refine ⟨rfl, ?_, ?_, ?_⟩
    · intro k hk
      exact mem_dirs_mkdirParents fs dossier k hk
    · rw [writeFile_writeFile, writeFile_writeFile]
      exact ⟨_, rfl⟩
    · exact ⟨_, analyser_ok_normal name dossier _ hcalc⟩

/-- C6 witness: the amended contract instantiated on the concrete `.xls` run. -/
theorem C6_output_path_sample :
    c6path = ["Out"] ++ [fileStem "donnees.xls" ++ "_resultats.xlsx"] ∧
    (∀ k, k < (["Out"] : List String).length → (["Out"] : List String).take (k + 1) ∈ c6fs.dirs) ∧
    (∃ s, c6fs.files = (c6path, s) :: fs0.files.filter (fun e => !(e.1 == c6path))) ∧
    (∃ fs2, analyser_dechargement "donnees.xls" c1df ["Out"] c6fs = .ok (fs2, c6path)) :=
  C6_output_path "donnees.xls" c1df ["Out"] fs0 c6fs c6path analyser_c1_run

/-- C9: re-running the exporter pipeline on the same enriched table and output
directory succeeds, returns the same path, and the file found there carries
the same data values (headers and rows) after each run. -/
theorem C9_export_idempotent (name : String) (df : Df) (dossier : List String) (fs : FS)
    (fs1 : FS) (p : List String)
    (h : analyser_dechargement name df dossier fs = .ok (fs1, p)) :
    ∃ fs2, analyser_dechargement name df dossier fs1 = .ok (fs2, p) ∧
      (getFile fs2 p).map (fun sh => (sh.headers, sh.rows)) =
        (getFile fs1 p).map (fun sh => (sh.headers, sh.rows)) := by
  cases hcalc : calculer (stripHeaders df) with
  | error e => simp [analyser_dechargement, hcalc] at h
  | ok out =>
    rw [analyser_ok_normal name dossier fs hcalc] at h
    injection h with h
    injection h with hfs hp
    subst hfs
    subst hp
    refine ⟨_, analyser_ok_normal name dossier _ hcalc, ?_⟩
    rw [getFile_writeFile_self, getFile_writeFile_self]

/-- C9 witness: idempotence on the concrete run. -/
theorem C9_export_idempotent_sample :
    ∃ fs2, analyser_dechargement "donnees.xls" c1df ["Out"] c6fs = .ok (fs2, c6path) ∧
      (getFile fs2 c6path).map (fun sh => (sh.headers, sh.rows)) =
        (getFile c6fs c6path).map (fun sh => (sh.headers, sh.rows)) :=
  C9_export_idempotent "donnees.xls" c1df ["Out"] fs0 c6fs c6path analyser_c1_run

/-- Setting one cell's format: lookup afterwards. -/
theorem fmtAt_setFmt (s : Sheet) (c r : Nat) (f : String) (cp rp : Nat) :
    fmtAt (setFmt s c r f) cp rp = if c = cp ∧ r = rp then f else fmtAt s cp rp := by
  by_cases h : c = cp ∧ r = rp
  · obtain ⟨h1, h2⟩ := h
    subst h1
    subst h2
    simp [fmtAt, setFmt]
  · have hne : ¬((c, r) = (cp, rp)) := by
      simpa [Prod.mk.injEq] using h
    have hb : ((((c, r), f) : (Nat × Nat) × String).1 == (cp, rp)) = false := by
      simpa using hne
    simp [fmtAt, setFmt, List.find?, hb, h]

/-- The format-setting fold over the data rows of one column, characterised
pointwise. -/
theorem fmtAt_formatRange (t : Sheet) (idx n cp rp : Nat) :
    fmtAt ((List.range n).foldl (fun u k => setFmt u idx (2 + k) "#,##0.00") t) cp rp =
      if cp = idx ∧ 2 ≤ rp ∧ rp < 2 + n then "#,##0.00" else fmtAt t cp rp := by
  induction n with
  | zero =>
    simp only [List.range_zero, List.foldl_nil]
    rw [if_neg]
    rintro ⟨-, h2, h3⟩
    omega
  | succ n ih =>
    rw [List.range_succ, List.foldl_append]
    simp only [List.foldl_cons, List.foldl_nil]
    rw [fmtAt_setFmt, ih]
    by_cases h1 : idx = cp ∧ 2 + n = rp
    · rw [if_pos h1, if_pos ⟨h1.1.symm, by omega, by omega⟩]
    · rw [if_neg h1]
      by_cases h2 : cp = idx ∧ 2 ≤ rp ∧ rp < 2 + n
      · rw [if_pos h2, if_pos ⟨h2.1, h2.2.1, by omega⟩]
      · rw [if_neg h2]
        have hneg : ¬(cp = idx ∧ 2 ≤ rp ∧ rp < 2 + (n + 1)) := by
          rintro ⟨ha, hb, hc⟩
          by_cases hr : rp < 2 + n
          · exact h2 ⟨ha, hb, hr⟩
          · exact h1 ⟨ha.symm, by omega⟩
        rw [if_neg hneg]

/-- The format-setting fold touches only `fmts`. -/
theorem formatRange_preserve (t : Sheet) (idx n : Nat) :
    ((List.range n).foldl (fun u k => setFmt u idx (2 + k) "#,##0.00") t).headers = t.headers ∧
    ((List.range n).foldl (fun u k => setFmt u idx (2 + k) "#,##0.00") t).rows = t.rows ∧
    ((List.range n).foldl (fun u k => setFmt u idx (2 + k) "#,##0.00") t).widths = t.widths := by
  induction n with
  | zero => exact ⟨rfl, rfl, rfl⟩
  | succ n ih =>
    rw [List.range_succ, List.foldl_append]
    simp only [List.foldl_cons, List.foldl_nil]
    exact ⟨ih.1, ih.2.1, ih.2.2⟩

/-- One step of the numeric-format pass (one target column name),
characterised pointwise; an absent header leaves every format unchanged. -/
theorem fmtAt_stepFmt (s t : Sheet) (nm : String) (c r : Nat) :
    fmtAt (match colIndexExcel s.headers nm with
      | none => t
      | some idx =>
        (List.range s.rows.length).foldl (fun u k => setFmt u idx (2 + k) "#,##0.00") t) c r =
    if colIndexExcel s.headers nm = some c ∧ 2 ≤ r ∧ r < 2 + s.rows.length
    then "#,##0.00" else fmtAt t c r := by
  cases hio : colIndexExcel s.headers nm with
  | none => simp
  | some idx =>
    rw [fmtAt_formatRange]
    by_cases hc : c = idx
    · subst hc
      simp
    · have hci : ¬(idx = c) := fun hh => hc hh.symm
      simp [hc, hci]

theorem formatRange_headers (t : Sheet) (idx n : Nat) :
    ((List.range n).foldl (fun u k => setFmt u idx (2 + k) "#,##0.00") t).headers = t.headers :=
  (formatRange_preserve t idx n).1

theorem formatRange_rows (t : Sheet) (idx n : Nat) :
    ((List.range n).foldl (fun u k => setFmt u idx (2 + k) "#,##0.00") t).rows = t.rows :=
  (formatRange_preserve t idx n).2.1

theorem formatRange_widths (t : Sheet) (idx n : Nat) :
    ((List.range n).foldl (fun u k => setFmt u idx (2 + k) "#,##0.00") t).widths = t.widths :=
  (formatRange_preserve t idx n).2.2

/-- C7: the numeric-format pass leaves headers, cell values and widths
untouched, and sets the `#,##0.00` display format on exactly the cells lying
in a column whose row-1 header matches one of the three target names (matched
through the header dictionary), on every data row beneath the header; target
columns absent from the sheet are silently skipped. -/
theorem C7_numeric_format_pass (s : Sheet) :
    (appliquer_format_numerique s).headers = s.headers ∧
    (appliquer_format_numerique s).rows = s.rows ∧
    (appliquer_format_numerique s).widths = s.widths ∧
    ∀ c r, fmtAt (appliquer_format_numerique s) c r =
      if (colIndexExcel s.headers COL_POIDS_EAU_CALCULE = some c ∨
          colIndexExcel s.headers COL_POIDS_NET_CALCULE = some c ∨
          colIndexExcel s.headers COL_POIDS_NET_RECALCULE = some c) ∧
          2 ≤ r ∧ r ≤ s.rows.length + 1
      then "#,##0.00" else fmtAt s c r := by
  refine ⟨?_, ?_, ?_, ?_⟩
  · simp only [appliquer_format_numerique, NUMERIC_COLUMNS_TO_FORMAT, List.foldl_cons,
      List.foldl_nil]
    cases colIndexExcel s.headers COL_POIDS_EAU_CALCULE <;>
      cases colIndexExcel s.headers COL_POIDS_NET_CALCULE <;>
        cases colIndexExcel s.headers COL_POIDS_NET_RECALCULE <;>
          simp [formatRange_headers]
  · simp only [appliquer_format_numerique, NUMERIC_COLUMNS_TO_FORMAT, List.foldl_cons,
      List.foldl_nil]
    cases colIndexExcel s.headers COL_POIDS_EAU_CALCULE <;>
      cases colIndexExcel s.headers COL_POIDS_NET_CALCULE <;>
        cases colIndexExcel s.headers COL_POIDS_NET_RECALCULE <;>
          simp [formatRange_rows]
  · simp only [appliquer_format_numerique, NUMERIC_COLUMNS_TO_FORMAT, List.foldl_cons,
      List.foldl_nil]
    cases colIndexExcel s.headers COL_POIDS_EAU_CALCULE <;>
      cases colIndexExcel s.headers COL_POIDS_NET_CALCULE <;>
        cases colIndexExcel s.headers COL_POIDS_NET_RECALCULE <;>
          simp [formatRange_widths]
  · intro c r
    have hR : (2 ≤ r ∧ r ≤ s.rows.length + 1) = (2 ≤ r ∧ r < 2 + s.rows.length) := by
      apply propext
      constructor <;> (rintro ⟨a, b⟩; exact ⟨a, by omega⟩)
    simp only [hR]
    simp only [appliquer_format_numerique, NUMERIC_COLUMNS_TO_FORMAT, List.foldl_cons,
      List.foldl_nil]
    rw [fmtAt_stepFmt s _ COL_POIDS_NET_RECALCULE c r,
        fmtAt_stepFmt s _ COL_POIDS_NET_CALCULE c r,
        fmtAt_stepFmt s _ COL_POIDS_EAU_CALCULE c r]
    by_cases hEC : colIndexExcel s.headers COL_POIDS_EAU_CALCULE = some c <;>
      by_cases hNC : colIndexExcel s.headers COL_POIDS_NET_CALCULE = some c <;>
        by_cases hNR : colIndexExcel s.headers COL_POIDS_NET_RECALCULE = some c <;>
          by_cases hr : 2 ≤ r ∧ r < 2 + s.rows.length <;>
            simp [hEC, hNC, hNR, hr]

/-- Setting one column's width: lookup afterwards. -/
theorem widthAt_setWidth (s : Sheet) (c w cp : Nat) :
    widthAt (setWidth s c w) cp = if c = cp then some w else widthAt s cp := by
  by_cases h : c = cp
  · subst h
    simp [widthAt, setWidth]
  · have hb : ((c, w).1 == cp) = false := by simpa using h
    simp [widthAt, setWidth, List.find?, hb, h]

/-- The width-setting fold over the columns, characterised pointwise. -/
theorem widthAt_widthFold (t : Sheet) (n : Nat) (f : Nat → Nat) (i : Nat) (hi : i < n) :
    widthAt ((List.range n).foldl (fun u j => setWidth u (j + 1) (f j)) t) (i + 1) =
      some (f i) := by
  induction n with
  | zero => omega
  | succ n ih =>
    rw [List.range_succ, List.foldl_append]
    simp only [List.foldl_cons, List.foldl_nil]
    rw [widthAt_setWidth]
    by_cases h : n + 1 = i + 1
    · have : i = n := by omega
      subst this
      rw [if_pos rfl]
    · rw [if_neg h]
      exact ih (by omega)

/-- C8: the column-width pass sets every column's display width to the
maximum rendered string length over its header and all its cell values (a
missing cell counting as the empty string) plus the fixed padding 2; in
particular, a column with header text of 12 characters and longest cell text
of 8 characters ends with width 14. -/
theorem C8_column_width (s : Sheet) (i : Nat) (h : i < s.headers.length) :
    widthAt (ajuster_largeur_colonnes s) (i + 1) =
      some ((((s.headers.getD i "").length ::
        s.rows.map (fun row => (pyStr (row.getD i none)).length)).foldl Nat.max 0) + 2) ∧
    widthAt (ajuster_largeur_colonnes sheetLargeur) 1 = some 14 := by
  constructor
  · unfold ajuster_largeur_colonnes
    have hw := widthAt_widthFold s s.headers.length (fun j => colMaxLen s j + 2) i h
    simpa [colMaxLen] using hw
  · decide

/-- C8 witness: the width characterisation instantiated on the sample sheet
(12-character header, 8-character cell → width 14). -/
theorem C8_column_width_sample :
    widthAt (ajuster_largeur_colonnes sheetLargeur) (0 + 1) =
      some ((((sheetLargeur.headers.getD 0 "").length ::
        sheetLargeur.rows.map (fun row => (pyStr (row.getD 0 none)).length)).foldl Nat.max 0)
          + 2) ∧
    widthAt (ajuster_largeur_colonnes sheetLargeur) 1 = some 14 :=
  C8_column_width sheetLargeur 0 (by decide)
